import Mathlib

/-!
Shallow embedding of the Go package `stockal` (unofficial-stockal-api),
file `stockal.go`.  Pure data structures are translated field by field;
the stateful client methods become explicit state-passing functions that
return the new client, the list of HTTP requests issued, the decoded
response (the Go pointer result, `Option`) and the error (Go `error`,
`Option ClientError`).

Modelling conventions:
- JSON values are a standard inductive; numbers carry `Int`, which covers
  every body exercised by the claims (no fractional literal appears in
  any of them).  Fields of Go type `float64` therefore carry the decoded
  integer-valued number exactly.
- `encoding/json.Unmarshal` into a struct is modelled per shape: a missing
  key or a JSON null leaves the zero value, a key of the wrong JSON type
  fails the decode, unknown keys are ignored, the last occurrence of a
  duplicated key wins.  `Unmarshal` on input that is not valid JSON fails
  without touching the target, which is modelled by the body being
  `none : Option Json`.
- The HTTP layer behind `httpClient.Do` is an oracle parameter
  `Transport : Request -> Except Unit HttpResponse`; `Except.error`
  stands for any `Do` failure (network error, timeout, cancellation).
- `http.Header` is a finite map modelled as `String -> Option String`;
  `Header.Set` is pointwise update.
- `url.JoinPath` is modelled as concatenation, faithful for the
  slash-free base URLs and absolute endpoint paths the client uses; no
  claim inspects the joined URL.
- Go `time.Duration` is `Int` (nanoseconds).
-/

namespace Stockal

/-- JSON values as decoded by encoding/json. -/
inductive Json where
  | null
  | jbool (b : Bool)
  | jnum (n : Int)
  | jstr (s : String)
  | jarr (elems : List Json)
  | jobj (fields : List (String × Json))
deriving Repr

/-- Go constant BaseURL. -/
def BaseURL : String := "https://api-v2.stockal.com"

/-- Go constant DefaultTimeout = 30 * time.Second, in nanoseconds. -/
def DefaultTimeout : Int := 30 * 1000000000

/-- Go constant DefaultUserAgent. -/
def DefaultUserAgent : String := "unofficial-stockal-api/1.0"

/-- The error values the client code can return (Go `error`).  The four
sentinel errors, the structured `APIError`, and the `fmt.Errorf` wrappers
of `handleResponse`, `makeRequest` and the operation methods. -/
inductive ClientError where
  /-- ErrNotAuthenticated = errors.New("not authenticated: please login first") -/
  | errNotAuthenticated
  /-- ErrInvalidCredentials = errors.New("invalid credentials") -/
  | errInvalidCredentials
  /-- ErrEmptyUsername = errors.New("username cannot be empty") -/
  | errEmptyUsername
  /-- ErrEmptyPassword = errors.New("password cannot be empty") -/
  | errEmptyPassword
  /-- The structured `*APIError` returned by handleResponse on a non-200
  status whose body decodes to a non-zero code. -/
  | apiError (code : Int) (message : String) (err : String)
  /-- fmt.Errorf of the failing operation name and status code. -/
  | statusCodeError (op : String) (status : Nat)
  /-- fmt.Errorf wrapping a json.Unmarshal failure of the body. -/
  | parseError
  /-- fmt.Errorf wrapping an io.ReadAll failure of the body. -/
  | bodyReadError
  /-- fmt.Errorf wrapping a makeRequest failure inside the named
  operation, e.g. login request failed. -/
  | requestFailed (op : String)
deriving Repr, DecidableEq

/-- Helper for strings.TrimSpace: drop leading whitespace characters. -/
def dropLeadingSpace : List Char → List Char
  | [] => []
  | c :: cs => if c.isWhitespace then dropLeadingSpace cs else c :: cs

/-- strings.TrimSpace: the input with leading and trailing whitespace
removed. -/
def trimSpace (s : String) : String :=
  ⟨(dropLeadingSpace (dropLeadingSpace s.data).reverse).reverse⟩

/-- struct LoginRequest. -/
structure LoginRequest where
  username : String
  password : String
deriving Repr, DecidableEq

/-- struct LoginData. -/
structure LoginData where
  accessToken : String
  refreshToken : String
  expiryAccessToken : String
  expiryRefreshToken : String
deriving Repr, DecidableEq

/-- Go zero value of LoginData. -/
def zeroLoginData : LoginData := ⟨"", "", "", ""⟩

/-- struct LoginResponse. -/
structure LoginResponse where
  code : Int
  message : String
  data : LoginData
  error : String
deriving Repr, DecidableEq

/-- Go zero value of LoginResponse. -/
def zeroLoginResponse : LoginResponse := ⟨0, "", zeroLoginData, ""⟩

/-- struct APIError (as data; its rendering by Error() is not needed). -/
structure APIError where
  code : Int
  message : String
  err : String
deriving Repr, DecidableEq

/-- Go zero value of APIError. -/
def zeroAPIError : APIError := ⟨0, "", ""⟩

/-- struct CashSettlement. -/
structure CashSettlement where
  utcTime : String
  cash : Int
deriving Repr, DecidableEq

/-- Go zero value of CashSettlement. -/
def zeroCashSettlement : CashSettlement := ⟨"", 0⟩

/-- struct AccountSummary. -/
structure AccountSummary where
  cashAvailableForTrade : Int
  cashAvailableForWithdrawal : Int
  cashBalance : Int
  goodFaithViolations : String
  restricted : Bool
  cashSettlement : List CashSettlement
deriving Repr, DecidableEq

/-- Go zero value of AccountSummary. -/
def zeroAccountSummary : AccountSummary := ⟨0, 0, 0, "", false, []⟩

/-- struct Portfolio. -/
structure Portfolio where
  currentValue : Int
  investmentAmount : Int
deriving Repr, DecidableEq

/-- Go zero value of Portfolio. -/
def zeroPortfolio : Portfolio := ⟨0, 0⟩

/-- struct PortfolioSummary. -/
structure PortfolioSummary where
  stockPortfolio : Portfolio
  stackPortfolio : Portfolio
  etfPortfolio : Portfolio
  totalCurrentValue : Int
  totalInvestmentAmount : Int
deriving Repr, DecidableEq

/-- Go zero value of PortfolioSummary. -/
def zeroPortfolioSummary : PortfolioSummary :=
  ⟨zeroPortfolio, zeroPortfolio, zeroPortfolio, 0, 0⟩

/-- struct AccountSummaryData. -/
structure AccountSummaryData where
  utcTime : String
  accountSummary : AccountSummary
  unsettledAmount : Int
  portfolioSummary : PortfolioSummary
deriving Repr, DecidableEq

/-- Go zero value of AccountSummaryData. -/
def zeroAccountSummaryData : AccountSummaryData :=
  ⟨"", zeroAccountSummary, 0, zeroPortfolioSummary⟩

/-- struct AccountSummaryResponse. -/
structure AccountSummaryResponse where
  code : Int
  message : String
  data : AccountSummaryData
deriving Repr, DecidableEq

/-- Go zero value of AccountSummaryResponse. -/
def zeroAccountSummaryResponse : AccountSummaryResponse :=
  ⟨0, "", zeroAccountSummaryData⟩

/-- struct Holding. -/
structure Holding where
  symbol : String
  ticker : String
  userID : String
  date : String
  v : Int
  category : String
  status : String
  timestamp : Int
  totalInvestment : Int
  totalUnit : Int
  typ : String
  code : String
  company : String
  price : Int
  listed : Bool
  close : Int
  priorClose : Int
  logo : String
  sellOnly : Bool
deriving Repr, DecidableEq

/-- Go zero value of Holding. -/
def zeroHolding : Holding :=
  ⟨"", "", "", "", 0, "", "", 0, 0, 0, "", "", "", 0, false, 0, 0, "", false⟩

/-- struct PortfolioDetailData; pendingData has Go type []interface, kept
as raw JSON values. -/
structure PortfolioDetailData where
  pendingData : List Json
  holdings : List Holding
  timestamp : Int
  totalRecords : Int
deriving Repr

/-- Go zero value of PortfolioDetailData. -/
def zeroPortfolioDetailData : PortfolioDetailData := ⟨[], [], 0, 0⟩

/-- struct PortfolioDetailResponse. -/
structure PortfolioDetailResponse where
  code : Int
  message : String
  data : PortfolioDetailData
deriving Repr

/-- Go zero value of PortfolioDetailResponse. -/
def zeroPortfolioDetailResponse : PortfolioDetailResponse :=
  ⟨0, "", zeroPortfolioDetailData⟩

/-! JSON object decoding helpers, following the encoding/json semantics
listed in the module docstring. -/

/-- Find the value of a key in a decoded JSON object; as in encoding/json,
the last occurrence of a duplicated key wins. -/
def lookupField (fields : List (String × Json)) (key : String) : Option Json :=
  (List.find? (fun p => p.1 == key) fields.reverse).map (fun p => p.2)

/-- Decode a struct field of Go type string. -/
def decStrField (fields : List (String × Json)) (key : String) : Option String :=
  match lookupField fields key with
  | none => some ""
  | some Json.null => some ""
  | some (Json.jstr s) => some s
  | some _ => none

/-- Decode a struct field of Go numeric type (int, int64, float64). -/
def decNumField (fields : List (String × Json)) (key : String) : Option Int :=
  match lookupField fields key with
  | none => some 0
  | some Json.null => some 0
  | some (Json.jnum n) => some n
  | some _ => none

/-- Decode a struct field of Go type bool. -/
def decBoolField (fields : List (String × Json)) (key : String) : Option Bool :=
  match lookupField fields key with
  | none => some false
  | some Json.null => some false
  | some (Json.jbool b) => some b
  | some _ => none

/-- Decode a struct field holding a nested struct: a missing key leaves
the zero value, otherwise the nested decoder runs (it handles null). -/
def decSubField {α : Type} (fields : List (String × Json)) (key : String)
    (dec : Json → Option α) (zero : α) : Option α :=
  match lookupField fields key with
  | none => some zero
  | some j => dec j

/-- Decode a struct field of Go slice type: missing or null gives the nil
slice, an array decodes elementwise, anything else fails. -/
def decListField {α : Type} (fields : List (String × Json)) (key : String)
    (dec : Json → Option α) : Option (List α) :=
  match lookupField fields key with
  | none => some []
  | some Json.null => some []
  | some (Json.jarr xs) => xs.mapM dec
  | some _ => none

/-- json.Unmarshal into LoginData. -/
def unmarshalLoginData : Json → Option LoginData
  | Json.null => some zeroLoginData
  | Json.jobj fs => do
      let a ← decStrField fs "accessToken"
      let r ← decStrField fs "refreshToken"
      let ea ← decStrField fs "expiryAccessToken"
      let er ← decStrField fs "expiryRefreshToken"
      some ⟨a, r, ea, er⟩
  | _ => none

/-- json.Unmarshal into LoginResponse. -/
def unmarshalLoginResponse : Json → Option LoginResponse
  | Json.null => some zeroLoginResponse
  | Json.jobj fs => do
      let c ← decNumField fs "code"
      let m ← decStrField fs "message"
      let d ← decSubField fs "data" unmarshalLoginData zeroLoginData
      let e ← decStrField fs "error"
      some ⟨c, m, d, e⟩
  | _ => none

/-- json.Unmarshal into APIError. -/
def unmarshalAPIError : Json → Option APIError
  | Json.null => some zeroAPIError
  | Json.jobj fs => do
      let c ← decNumField fs "code"
      let m ← decStrField fs "message"
      let e ← decStrField fs "error"
      some ⟨c, m, e⟩
  | _ => none

/-- json.Unmarshal into CashSettlement. -/
def unmarshalCashSettlement : Json → Option CashSettlement
  | Json.null => some zeroCashSettlement
  | Json.jobj fs => do
      let t ← decStrField fs "utcTime"
      let c ← decNumField fs "cash"
      some ⟨t, c⟩
  | _ => none

/-- json.Unmarshal into AccountSummary. -/
def unmarshalAccountSummary : Json → Option AccountSummary
  | Json.null => some zeroAccountSummary
  | Json.jobj fs => do
      let t ← decNumField fs "cashAvailableForTrade"
      let w ← decNumField fs "cashAvailableForWithdrawal"
      let b ← decNumField fs "cashBalance"
      let g ← decStrField fs "goodFaithViolations"
      let r ← decBoolField fs "restricted"
      let s ← decListField fs "cashSettlement" unmarshalCashSettlement
      some ⟨t, w, b, g, r, s⟩
  | _ => none

/-- json.Unmarshal into Portfolio. -/
def unmarshalPortfolio : Json → Option Portfolio
  | Json.null => some zeroPortfolio
  | Json.jobj fs => do
      let c ← decNumField fs "currentValue"
      let i ← decNumField fs "investmentAmount"
      some ⟨c, i⟩
  | _ => none

/-- json.Unmarshal into PortfolioSummary. -/
def unmarshalPortfolioSummary : Json → Option PortfolioSummary
  | Json.null => some zeroPortfolioSummary
  | Json.jobj fs => do
      let st ← decSubField fs "stockPortfolio" unmarshalPortfolio zeroPortfolio
      let sk ← decSubField fs "stackPortfolio" unmarshalPortfolio zeroPortfolio
      let et ← decSubField fs "etfPortfolio" unmarshalPortfolio zeroPortfolio
      let tc ← decNumField fs "totalCurrentValue"
      let ti ← decNumField fs "totalInvestmentAmount"
      some ⟨st, sk, et, tc, ti⟩
  | _ => none

/-- json.Unmarshal into AccountSummaryData. -/
def unmarshalAccountSummaryData : Json → Option AccountSummaryData
  | Json.null => some zeroAccountSummaryData
  | Json.jobj fs => do
      let t ← decStrField fs "utcTime"
      let a ← decSubField fs "accountSummary" unmarshalAccountSummary zeroAccountSummary
      let u ← decNumField fs "unsettledAmount"
      let p ← decSubField fs "portfolioSummary" unmarshalPortfolioSummary zeroPortfolioSummary
      some ⟨t, a, u, p⟩
  | _ => none

/-- json.Unmarshal into AccountSummaryResponse. -/
def unmarshalAccountSummaryResponse : Json → Option AccountSummaryResponse
  | Json.null => some zeroAccountSummaryResponse
  | Json.jobj fs => do
      let c ← decNumField fs "code"
      let m ← decStrField fs "message"
      let d ← decSubField fs "data" unmarshalAccountSummaryData zeroAccountSummaryData
      some ⟨c, m, d⟩
  | _ => none

/-- First half of json.Unmarshal into Holding (split in two stages only
to keep elaboration linear; together the two stages decode exactly the
nineteen tagged fields of the Go struct). -/
def unmarshalHoldingIds (fs : List (String × Json)) : Option Holding := do
      let sym ← decStrField fs "symbol"
      let tck ← decStrField fs "ticker"
      let uid ← decStrField fs "userID"
      let dat ← decStrField fs "Date"
      let v ← decNumField fs "__v"
      let cat ← decStrField fs "category"
      let st ← decStrField fs "status"
      let ts ← decNumField fs "timestamp"
      let ti ← decNumField fs "totalInvestment"
      let tu ← decNumField fs "totalUnit"
      some ⟨sym, tck, uid, dat, v, cat, st, ts, ti, tu, "", "", "", 0, false, 0, 0, "", false⟩

/-- Second half of json.Unmarshal into Holding. -/
def unmarshalHoldingQuote (fs : List (String × Json)) (h : Holding) : Option Holding := do
      let ty ← decStrField fs "type"
      let cd ← decStrField fs "code"
      let co ← decStrField fs "company"
      let pr ← decNumField fs "price"
      let li ← decBoolField fs "listed"
      let cl ← decNumField fs "close"
      let pc ← decNumField fs "priorClose"
      let lo ← decStrField fs "logo"
      let so ← decBoolField fs "sellOnly"
      some { h with typ := ty, code := cd, company := co, price := pr, listed := li,
                    close := cl, priorClose := pc, logo := lo, sellOnly := so }

/-- json.Unmarshal into Holding. -/
def unmarshalHolding : Json → Option Holding
  | Json.null => some zeroHolding
  | Json.jobj fs => (unmarshalHoldingIds fs).bind (unmarshalHoldingQuote fs)
  | _ => none

/-- json.Unmarshal into PortfolioDetailData. -/
def unmarshalPortfolioDetailData : Json → Option PortfolioDetailData
  | Json.null => some zeroPortfolioDetailData
  | Json.jobj fs => do
      let pd ← decListField fs "pendingData" some
      let hs ← decListField fs "holdings" unmarshalHolding
      let ts ← decNumField fs "timestamp"
      let tr ← decNumField fs "totalRecords"
      some ⟨pd, hs, ts, tr⟩
  | _ => none

/-- json.Unmarshal into PortfolioDetailResponse. -/
def unmarshalPortfolioDetailResponse : Json → Option PortfolioDetailResponse
  | Json.null => some zeroPortfolioDetailResponse
  | Json.jobj fs => do
      let c ← decNumField fs "code"
      let m ← decStrField fs "message"
      let d ← decSubField fs "data" unmarshalPortfolioDetailData zeroPortfolioDetailData
      some ⟨c, m, d⟩
  | _ => none

/-- json.Marshal of LoginRequest (field tags username, password). -/
def marshalLoginRequest (r : LoginRequest) : Json :=
  Json.jobj [("username", Json.jstr r.username), ("password", Json.jstr r.password)]

/-! The HTTP layer: configuration, client, transport oracle. -/

/-- The model of *http.Client: the only field the package touches is
Timeout (nanoseconds). -/
structure HTTPClient where
  timeout : Int
deriving Repr, DecidableEq

/-- struct clientConfig; httpClient is a pointer, hence Option. -/
structure ClientConfig where
  baseURL : String
  httpClient : Option HTTPClient
  userAgent : String
deriving Repr, DecidableEq

/-- type ClientOption = func given the config, mutating it in place,
modelled as a config transformer. -/
def ClientOption : Type := ClientConfig → ClientConfig

/-- WithBaseURL option. -/
def WithBaseURL (baseURL : String) : ClientOption :=
  fun c => { c with baseURL := baseURL }

/-- WithHTTPClient option. -/
def WithHTTPClient (client : Option HTTPClient) : ClientOption :=
  fun c => { c with httpClient := client }

/-- WithUserAgent option. -/
def WithUserAgent (userAgent : String) : ClientOption :=
  fun c => { c with userAgent := userAgent }

/-- WithTimeout option: allocates a fresh http.Client when the config has
none, then stores the given timeout unconditionally. -/
def WithTimeout (timeout : Int) : ClientOption :=
  fun c =>
    match c.httpClient with
    | none => { c with httpClient := some ⟨timeout⟩ }
    | some h => { c with httpClient := some { h with timeout := timeout } }

/-- struct Client; accessToken starts at the string zero value. -/
structure Client where
  baseURL : String
  httpClient : Option HTTPClient
  userAgent : String
  accessToken : String
deriving Repr, DecidableEq

/-- NewClient: defaults, then the options applied in call order. -/
def NewClient (options : List ClientOption) : Client :=
  let config := options.foldl (fun cfg opt => opt cfg)
    { baseURL := BaseURL
      userAgent := DefaultUserAgent
      httpClient := some ⟨DefaultTimeout⟩ }
  { baseURL := config.baseURL
    httpClient := config.httpClient
    userAgent := config.userAgent
    accessToken := "" }

/-- http.Header as a finite map. -/
def Headers : Type := String → Option String

/-- The empty header map of a fresh request. -/
def noHeaders : Headers := fun _ => none

/-- http.Header.Set. -/
def setHeader (h : Headers) (key value : String) : Headers :=
  fun k => if k = key then some value else h k

/-- An outgoing HTTP request as makeRequest builds it. -/
structure Request where
  method : String
  url : String
  headers : Headers
  body : Option Json

/-- url.JoinPath, for the slash-free base and absolute endpoint paths the
client uses. -/
def joinUrl (base endpoint : String) : String := base ++ endpoint

/-- A raw HTTP response as handed back by the transport.  bodyReadError
models an io.ReadAll failure; body is the JSON value the bytes parse to,
none when they are not valid JSON. -/
structure HttpResponse where
  statusCode : Nat
  bodyReadError : Bool
  body : Option Json

/-- The oracle standing for httpClient.Do: Except.error is any transport
failure (network error, timeout, context cancellation). -/
def Transport : Type := Request → Except Unit HttpResponse

/-- The request-construction half of makeRequest (lines up to and
including the Authorization header): the fixed browser-emulation headers,
Content-Type only with a payload, Authorization only with a token. -/
def buildRequest (c : Client) (method endpoint : String) (payload : Option Json) :
    Request :=
  let h := setHeader noHeaders "User-Agent" c.userAgent
  let h := setHeader h "Accept" "application/json, text/plain, */*"
  let h := setHeader h "Accept-Language" "en-US,en;q=0.5"
  let h := if payload.isSome then setHeader h "Content-Type" "application/json" else h
  let h := setHeader h "Origin" "https://globalinvesting.in"
  let h := setHeader h "Referer" "https://globalinvesting.in/"
  let h := setHeader h "Sec-Fetch-Dest" "empty"
  let h := setHeader h "Sec-Fetch-Mode" "cors"
  let h := setHeader h "Sec-Fetch-Site" "cross-site"
  let h := setHeader h "Cache-Control" "no-cache"
  let h := setHeader h "Pragma" "no-cache"
  let h := if c.accessToken ≠ "" then setHeader h "Authorization" c.accessToken else h
  { method := method, url := joinUrl c.baseURL endpoint, headers := h, body := payload }

/-- handleResponse: read the body, unmarshal into the result value, then
check the status code, preferring the structured APIError over the
generic status-code error.  Returns the Go out-parameter result (the
zero value when unmarshalling did not succeed) and the returned error. -/
def handleResponse {α : Type} (resp : HttpResponse) (unmarshal : Json → Option α)
    (zero : α) (operation : String) : α × Option ClientError :=
  if resp.bodyReadError then (zero, some ClientError.bodyReadError)
  else
    match resp.body with
    | none => (zero, some ClientError.parseError)
    | some j =>
      match unmarshal j with
      | none => (zero, some ClientError.parseError)
      | some v =>
        if resp.statusCode ≠ 200 then
          match unmarshalAPIError j with
          | some e =>
            if e.code ≠ 0 then (v, some (ClientError.apiError e.code e.message e.err))
            else (v, some (ClientError.statusCodeError operation resp.statusCode))
          | none => (v, some (ClientError.statusCodeError operation resp.statusCode))
        else (v, none)

/-- The outcome of a Login call: the client afterwards, the requests that
went over the wire, the Go return pair. -/
structure LoginResult where
  client : Client
  requests : List Request
  response : Option LoginResponse
  error : Option ClientError

/-- Client.Login: validate, POST the credentials, handle the response,
store the access token on success. -/
def Login (c : Client) (transport : Transport) (username password : String) :
    LoginResult :=
  if trimSpace username = "" then ⟨c, [], none, some ClientError.errEmptyUsername⟩
  else if trimSpace password = "" then ⟨c, [], none, some ClientError.errEmptyPassword⟩
  else
    let loginReq : LoginRequest := ⟨username, password⟩
    let req := buildRequest c "POST" "/v3/auth/login" (some (marshalLoginRequest loginReq))
    match transport req with
    | Except.error _ => ⟨c, [req], none, some (ClientError.requestFailed "login")⟩
    | Except.ok resp =>
      let out := handleResponse resp unmarshalLoginResponse zeroLoginResponse "login"
      match out.2 with
      | some e =>
        if out.1.error ≠ "" then ⟨c, [req], some out.1, some ClientError.errInvalidCredentials⟩
        else ⟨c, [req], some out.1, some e⟩
      | none =>
        ⟨{ c with accessToken := out.1.data.accessToken }, [req], some out.1, none⟩

/-- The outcome of a GetAccountSummary call. -/
structure SummaryResult where
  client : Client
  requests : List Request
  response : Option AccountSummaryResponse
  error : Option ClientError

/-- Client.GetAccountSummary: precondition check, then GET and decode. -/
def GetAccountSummary (c : Client) (transport : Transport) : SummaryResult :=
  if c.accessToken = "" then ⟨c, [], none, some ClientError.errNotAuthenticated⟩
  else
    let req := buildRequest c "GET" "/v2/users/accountSummary/summary" none
    match transport req with
    | Except.error _ =>
      ⟨c, [req], none, some (ClientError.requestFailed "account summary")⟩
    | Except.ok resp =>
      let out := handleResponse resp unmarshalAccountSummaryResponse
        zeroAccountSummaryResponse "account summary"
      ⟨c, [req], some out.1, out.2⟩

/-- The outcome of a GetPortfolioDetail call. -/
structure DetailResult where
  client : Client
  requests : List Request
  response : Option PortfolioDetailResponse
  error : Option ClientError

/-- Client.GetPortfolioDetail: precondition check, then GET and decode. -/
def GetPortfolioDetail (c : Client) (transport : Transport) : DetailResult :=
  if c.accessToken = "" then ⟨c, [], none, some ClientError.errNotAuthenticated⟩
  else
    let req := buildRequest c "GET" "/v2/users/portfolio/detail" none
    match transport req with
    | Except.error _ =>
      ⟨c, [req], none, some (ClientError.requestFailed "portfolio detail")⟩
    | Except.ok resp =>
      let out := handleResponse resp unmarshalPortfolioDetailResponse
        zeroPortfolioDetailResponse "portfolio detail"
      ⟨c, [req], some out.1, out.2⟩

/-! Helper lemmas shared by several claim theorems. -/

/-- On a non-200 status whose body decodes into the target shape, the
result value is the decoded envelope and some error is returned: the
structured APIError when the body also decodes to a non-zero code, the
generic status-code error otherwise. -/
theorem handleResponse_non200 {α : Type} (resp : HttpResponse)
    (unm : Json → Option α) (zero : α) (op : String) (j : Json) (v : α)
    (hread : resp.bodyReadError = false) (hbody : resp.body = some j)
    (hunm : unm j = some v) (hstatus : resp.statusCode ≠ 200) :
    ∃ e : ClientError, handleResponse resp unm zero op = (v, some e) := by
  rcases hapi : unmarshalAPIError j with _ | a
  · exact ⟨ClientError.statusCodeError op resp.statusCode,
      by simp [handleResponse, hread, hbody, hunm, hstatus, hapi]⟩
  · by_cases hc : a.code = 0
    · exact ⟨ClientError.statusCodeError op resp.statusCode,
        by simp [handleResponse, hread, hbody, hunm, hstatus, hapi, hc]⟩
    · exact ⟨ClientError.apiError a.code a.message a.err,
        by simp [handleResponse, hread, hbody, hunm, hstatus, hapi, hc]⟩

/-- On a 200 status whose body decodes into the target shape, the result
is the decoded envelope and no error. -/
theorem handleResponse_ok {α : Type} (resp : HttpResponse)
    (unm : Json → Option α) (zero : α) (op : String) (j : Json) (v : α)
    (hread : resp.bodyReadError = false) (hbody : resp.body = some j)
    (hunm : unm j = some v) (hstatus : resp.statusCode = 200) :
    handleResponse resp unm zero op = (v, none) := by
  simp [handleResponse, hread, hbody, hunm, hstatus]

/-- Every Login call either fails and leaves the client untouched, or
succeeds and stores exactly the access token of the decoded envelope. -/
theorem login_shape (c : Client) (tr : Transport) (u p : String) :
    ((Login c tr u p).error ≠ none ∧ (Login c tr u p).client = c) ∨
    ((Login c tr u p).error = none ∧ ∃ lr : LoginResponse,
      (Login c tr u p).response = some lr ∧
      (Login c tr u p).client = { c with accessToken := lr.data.accessToken }) := by
  by_cases h1 : trimSpace u = ""
  · left; simp [Login, h1]
  · by_cases h2 : trimSpace p = ""
    · left; simp [Login, h1, h2]
    · rcases htr : tr (buildRequest c "POST" "/v3/auth/login"
          (some (marshalLoginRequest ⟨u, p⟩))) with e | resp
      · left; simp [Login, h1, h2, htr]
      · rcases hout : (handleResponse resp unmarshalLoginResponse zeroLoginResponse "login").2
            with _ | e
        · right
          refine ⟨by simp [Login, h1, h2, htr, hout],
            (handleResponse resp unmarshalLoginResponse zeroLoginResponse "login").1,
            by simp [Login, h1, h2, htr, hout],
            by simp [Login, h1, h2, htr, hout]⟩
        · left
          by_cases h3 : (handleResponse resp unmarshalLoginResponse zeroLoginResponse
              "login").1.error = ""
          · simp [Login, h1, h2, htr, hout, h3]
          · simp [Login, h1, h2, htr, hout, h3]

/-- C2: for every response with HTTP status other than 200 whose body
decodes into the envelope and also into the API-error shape with a
non-zero numeric code, handleResponse returns that structured API error
carrying the code and message; only when that interpretation fails or
yields code 0 does it return the generic status-code error. -/
theorem C2_handleResponse_structured_api_error {α : Type} (resp : HttpResponse)
    (unm : Json → Option α) (zero : α) (op : String) (j : Json) (v : α)
    (hread : resp.bodyReadError = false) (hbody : resp.body = some j)
    (hunm : unm j = some v) (hstatus : resp.statusCode ≠ 200) :
    (∀ a : APIError, unmarshalAPIError j = some a → a.code ≠ 0 →
      handleResponse resp unm zero op =
        (v, some (ClientError.apiError a.code a.message a.err))) ∧
    ((∀ a : APIError, unmarshalAPIError j = some a → a.code = 0) →
      handleResponse resp unm zero op =
        (v, some (ClientError.statusCodeError op resp.statusCode))) := by
  constructor
  · intro a ha hc
    simp [handleResponse, hread, hbody, hunm, hstatus, ha, hc]
  · intro hz
    rcases ha : unmarshalAPIError j with _ | a
    · simp [handleResponse, hread, hbody, hunm, hstatus, ha]
    · simp [handleResponse, hread, hbody, hunm, hstatus, ha, hz a ha]

/-- Witness for C2: HTTP 500 carrying the body with code 500 and message
server error is surfaced as the structured API error 500, not as the
generic status-code error. -/
theorem C2_handleResponse_structured_api_error_witness :
    handleResponse (⟨500, false, some (Json.jobj [("code", Json.jnum 500),
        ("message", Json.jstr "server error")])⟩ : HttpResponse)
      unmarshalLoginResponse zeroLoginResponse "login" =
      (⟨500, "server error", zeroLoginData, ""⟩,
       some (ClientError.apiError 500 "server error" "")) :=
  (C2_handleResponse_structured_api_error
      (⟨500, false, some (Json.jobj [("code", Json.jnum 500),
        ("message", Json.jstr "server error")])⟩ : HttpResponse)
      unmarshalLoginResponse zeroLoginResponse "login"
      (Json.jobj [("code", Json.jnum 500), ("message", Json.jstr "server error")])
      ⟨500, "server error", zeroLoginData, ""⟩
      rfl rfl (by decide) (by decide)).1
    ⟨500, "server error", ""⟩ (by decide) (by decide)

/-- C3: a Login call in which the username or the password is blank
fails with the dedicated validation error, issues zero network calls,
returns no response and leaves the client untouched. -/
theorem C3_login_blank_validation (c : Client) (tr : Transport) (u p : String)
    (h : trimSpace u = "" ∨ trimSpace p = "") :
    ((Login c tr u p).error = some ClientError.errEmptyUsername ∨
     (Login c tr u p).error = some ClientError.errEmptyPassword) ∧
    (Login c tr u p).requests = [] ∧
    (Login c tr u p).response = none ∧
    (Login c tr u p).client = c := by
  by_cases h1 : trimSpace u = ""
  · simp [Login, h1]
  · rcases h with h | h
    · exact absurd h h1
    · simp [Login, h1, h]

/-- Witness for C3: both blank-username and blank-password calls on a
fresh client fail with the validation errors and issue no request. -/
theorem C3_login_blank_validation_witness :
    (((Login (NewClient []) (fun _ => Except.error ()) "" "x").error =
        some ClientError.errEmptyUsername ∨
      (Login (NewClient []) (fun _ => Except.error ()) "" "x").error =
        some ClientError.errEmptyPassword) ∧
     (Login (NewClient []) (fun _ => Except.error ()) "" "x").requests = [] ∧
     (Login (NewClient []) (fun _ => Except.error ()) "" "x").response = none ∧
     (Login (NewClient []) (fun _ => Except.error ()) "" "x").client = NewClient []) ∧
    (((Login (NewClient []) (fun _ => Except.error ()) "x" "").error =
        some ClientError.errEmptyUsername ∨
      (Login (NewClient []) (fun _ => Except.error ()) "x" "").error =
        some ClientError.errEmptyPassword) ∧
     (Login (NewClient []) (fun _ => Except.error ()) "x" "").requests = [] ∧
     (Login (NewClient []) (fun _ => Except.error ()) "x" "").response = none ∧
     (Login (NewClient []) (fun _ => Except.error ()) "x" "").client = NewClient []) :=
  ⟨C3_login_blank_validation (NewClient []) (fun _ => Except.error ()) "" "x"
      (Or.inl (by decide)),
   C3_login_blank_validation (NewClient []) (fun _ => Except.error ()) "x" ""
      (Or.inr (by decide))⟩

/-- C4: whenever the stored access token is empty (in particular on any
freshly constructed client, whose token is always empty), both read
operations fail with the dedicated not-authenticated error, return no
response and issue zero network calls. -/
theorem C4_not_authenticated_precondition (c : Client) (tr tr2 : Transport)
    (h : c.accessToken = "") :
    (∀ options : List ClientOption, (NewClient options).accessToken = "") ∧
    (GetAccountSummary c tr).error = some ClientError.errNotAuthenticated ∧
    (GetAccountSummary c tr).requests = [] ∧
    (GetAccountSummary c tr).response = none ∧
    (GetPortfolioDetail c tr2).error = some ClientError.errNotAuthenticated ∧
    (GetPortfolioDetail c tr2).requests = [] ∧
    (GetPortfolioDetail c tr2).response = none := by
  refine ⟨fun options => rfl, ?_⟩
  simp [GetAccountSummary, GetPortfolioDetail, h]

/-- Witness for C4: a fresh default client satisfies the empty-token
hypothesis and both operations fail without any request. -/
theorem C4_not_authenticated_precondition_witness :
    (∀ options : List ClientOption, (NewClient options).accessToken = "") ∧
    (GetAccountSummary (NewClient []) (fun _ => Except.error ())).error =
      some ClientError.errNotAuthenticated ∧
    (GetAccountSummary (NewClient []) (fun _ => Except.error ())).requests = [] ∧
    (GetAccountSummary (NewClient []) (fun _ => Except.error ())).response = none ∧
    (GetPortfolioDetail (NewClient []) (fun _ => Except.error ())).error =
      some ClientError.errNotAuthenticated ∧
    (GetPortfolioDetail (NewClient []) (fun _ => Except.error ())).requests = [] ∧
    (GetPortfolioDetail (NewClient []) (fun _ => Except.error ())).response = none :=
  C4_not_authenticated_precondition (NewClient [])
    (fun _ => Except.error ()) (fun _ => Except.error ()) rfl

/-- C9: neither GetAccountSummary nor GetPortfolioDetail mutates the
client: whatever the transport outcome, the client record afterwards is
exactly the one passed in. -/
theorem C9_read_operations_frame (c : Client) (tr tr2 : Transport) :
    (GetAccountSummary c tr).client = c ∧ (GetPortfolioDetail c tr2).client = c := by
  constructor
  · by_cases h : c.accessToken = ""
    · simp [GetAccountSummary, h]
    · rcases htr : tr (buildRequest c "GET" "/v2/users/accountSummary/summary" none)
          with e | resp
      · simp [GetAccountSummary, h, htr]
      · simp [GetAccountSummary, h, htr]
  · by_cases h : c.accessToken = ""
    · simp [GetPortfolioDetail, h]
    · rcases htr : tr2 (buildRequest c "GET" "/v2/users/portfolio/detail" none)
          with e | resp
      · simp [GetPortfolioDetail, h, htr]
      · simp [GetPortfolioDetail, h, htr]

/-- C8 counterexample: configuring the client with the non-positive
timeout -1 is not surfaced as an error anywhere: construction succeeds
and yields the ordinary default client with -1 stored as the timeout.
This refutes the claim that a non-positive timeout is a caller error
surfaced at construction time. -/
theorem C8_counterexample_negative_timeout_accepted :
    NewClient [WithTimeout (-1)] =
      { baseURL := BaseURL, httpClient := some ⟨-1⟩,
        userAgent := DefaultUserAgent, accessToken := "" } := by decide

/-- C8 amended: WithTimeout performs no validation at all; for every
non-positive duration, NewClient succeeds and stores that duration
unchanged on the HTTP client, so the violation is never surfaced, at
construction time or later. -/
theorem C8_no_timeout_validation (t : Int) (_h : t ≤ 0) :
    NewClient [WithTimeout t] =
      { baseURL := BaseURL, httpClient := some ⟨t⟩,
        userAgent := DefaultUserAgent, accessToken := "" } := rfl

/-- Witness for C8 amended: the duration -1 is non-positive and stored
unchanged. -/
theorem C8_no_timeout_validation_witness :
    NewClient [WithTimeout (-1)] =
      { baseURL := BaseURL, httpClient := some ⟨-1⟩,
        userAgent := DefaultUserAgent, accessToken := "" } :=
  C8_no_timeout_validation (-1) (by decide)

/-- C5: every Login call that returns an error (validation, transport,
decode or API level) leaves the stored access token exactly as it was
before the call. -/
theorem C5_failed_login_token_unchanged (c : Client) (tr : Transport) (u p : String)
    (h : (Login c tr u p).error ≠ none) :
    (Login c tr u p).client.accessToken = c.accessToken := by
  rcases login_shape c tr u p with ⟨_, hc⟩ | ⟨hn, _⟩
  · rw [hc]
  · exact absurd hn h

/-- Witness for C5: a login whose transport fails returns an error and
keeps the previously stored token T. -/
theorem C5_failed_login_token_unchanged_witness :
    (Login { baseURL := BaseURL, httpClient := some ⟨DefaultTimeout⟩,
             userAgent := DefaultUserAgent, accessToken := "T" }
       (fun _ => Except.error ()) "u" "p").client.accessToken =
    ({ baseURL := BaseURL, httpClient := some ⟨DefaultTimeout⟩,
       userAgent := DefaultUserAgent, accessToken := "T" } : Client).accessToken :=
  C5_failed_login_token_unchanged
    { baseURL := BaseURL, httpClient := some ⟨DefaultTimeout⟩,
      userAgent := DefaultUserAgent, accessToken := "T" }
    (fun _ => Except.error ()) "u" "p" (by decide)

/-- C6 counterexample: a failed Login does not put the client into the
Unauthenticated state when it was Authenticated before: on a client
holding token T, the failing call Login with a blank username returns an
error, yet the stored access token is still the non-empty T.  This
refutes the claim that after every failed Login the stored token is
empty regardless of the prior state. -/
theorem C6_counterexample_failed_login_keeps_token :
    (Login { baseURL := BaseURL, httpClient := some ⟨DefaultTimeout⟩,
             userAgent := DefaultUserAgent, accessToken := "T" }
       (fun _ => Except.error ()) "" "x").error ≠ none ∧
    (Login { baseURL := BaseURL, httpClient := some ⟨DefaultTimeout⟩,
             userAgent := DefaultUserAgent, accessToken := "T" }
       (fun _ => Except.error ()) "" "x").client.accessToken = "T" := by decide

/-- C6 amended: a failed Login leaves the client record unchanged, so a
client that was Unauthenticated before the call remains Unauthenticated;
a successful Login stores exactly the access token of the decoded
envelope, so only a login yielding a non-empty access token results in
the Authenticated state of the spec. -/
theorem C6_failed_login_state_unchanged (c : Client) (tr : Transport) (u p : String) :
    ((Login c tr u p).error ≠ none → (Login c tr u p).client = c) ∧
    ((Login c tr u p).error = none → ∃ lr : LoginResponse,
      (Login c tr u p).response = some lr ∧
      (Login c tr u p).client.accessToken = lr.data.accessToken) := by
  constructor
  · intro h
    rcases login_shape c tr u p with ⟨_, hc⟩ | ⟨hn, _⟩
    · exact hc
    · exact absurd hn h
  · intro h
    rcases login_shape c tr u p with ⟨hn, _⟩ | ⟨_, lr, hr, hc⟩
    · exact absurd h hn
    · exact ⟨lr, hr, by rw [hc]⟩

/-- Witness for C6 amended: the failing blank-username login on an
authenticated client leaves the client record unchanged. -/
theorem C6_failed_login_state_unchanged_witness :
    (Login { baseURL := BaseURL, httpClient := some ⟨DefaultTimeout⟩,
             userAgent := DefaultUserAgent, accessToken := "T" }
       (fun _ => Except.error ()) "" "x").client =
      { baseURL := BaseURL, httpClient := some ⟨DefaultTimeout⟩,
        userAgent := DefaultUserAgent, accessToken := "T" } :=
  (C6_failed_login_state_unchanged
    { baseURL := BaseURL, httpClient := some ⟨DefaultTimeout⟩,
      userAgent := DefaultUserAgent, accessToken := "T" }
    (fun _ => Except.error ()) "" "x").1 (by decide)

/-- C1 counterexample: a Login whose HTTP exchange returns status 200
with decoded envelope code 401, message fail and the non-empty error
string invalid does NOT return the dedicated invalid-credentials error:
handleResponse treats the 200 status as success, so Login returns no
error at all (while storing the empty access token).  This refutes the
claimed error result; the remainder of the claimed scenario (client
stays Unauthenticated, GetAccountSummary fails the precondition) does
hold and is recorded here as well. -/
theorem C1_counterexample_http200_error_is_success :
    (Login (NewClient []) (fun _ => Except.ok ⟨200, false, some (Json.jobj
        [("code", Json.jnum 401), ("message", Json.jstr "fail"),
         ("error", Json.jstr "invalid")])⟩) "u" "p").error = none ∧
    (Login (NewClient []) (fun _ => Except.ok ⟨200, false, some (Json.jobj
        [("code", Json.jnum 401), ("message", Json.jstr "fail"),
         ("error", Json.jstr "invalid")])⟩) "u" "p").error ≠
      some ClientError.errInvalidCredentials ∧
    (Login (NewClient []) (fun _ => Except.ok ⟨200, false, some (Json.jobj
        [("code", Json.jnum 401), ("message", Json.jstr "fail"),
         ("error", Json.jstr "invalid")])⟩) "u" "p").client.accessToken = "" := by
  decide

/-- C1 amended: the dedicated invalid-credentials error is produced only
when handleResponse itself fails, i.e. on a NON-200 status: for every
Login whose exchange returns a non-200 status and whose body decodes
into the envelope with a non-empty application-level error string, Login
returns the invalid-credentials error, the client record is unchanged,
and when the token was empty before the call a subsequent
GetAccountSummary still fails with the precondition error and issues no
request.  On an HTTP 200 exchange Login reports success regardless of
the error string. -/
theorem C1_invalid_credentials_on_non200 (c : Client) (tr tr2 : Transport)
    (u p : String) (resp : HttpResponse) (j : Json) (lr : LoginResponse)
    (hu : trimSpace u ≠ "") (hp : trimSpace p ≠ "")
    (htr : tr (buildRequest c "POST" "/v3/auth/login"
        (some (marshalLoginRequest ⟨u, p⟩))) = Except.ok resp)
    (hread : resp.bodyReadError = false) (hbody : resp.body = some j)
    (hdec : unmarshalLoginResponse j = some lr)
    (hstatus : resp.statusCode ≠ 200) (herr : lr.error ≠ "") :
    (Login c tr u p).error = some ClientError.errInvalidCredentials ∧
    (Login c tr u p).response = some lr ∧
    (Login c tr u p).client = c ∧
    (c.accessToken = "" →
      (GetAccountSummary (Login c tr u p).client tr2).error =
        some ClientError.errNotAuthenticated ∧
      (GetAccountSummary (Login c tr u p).client tr2).requests = []) := by
  obtain ⟨e, he⟩ := handleResponse_non200 resp unmarshalLoginResponse
    zeroLoginResponse "login" j lr hread hbody hdec hstatus
  have hlogin : Login c tr u p =
      ⟨c, [buildRequest c "POST" "/v3/auth/login"
            (some (marshalLoginRequest ⟨u, p⟩))], some lr,
        some ClientError.errInvalidCredentials⟩ := by
    simp [Login, hu, hp, htr, he, herr]
  refine ⟨by rw [hlogin], by rw [hlogin], by rw [hlogin], fun htok => ?_⟩
  rw [hlogin]
  simp [GetAccountSummary, htok]

/-- Witness for C1 amended: HTTP 401 with the envelope carrying code
401, message fail and error invalid yields the invalid-credentials
error on a fresh client, which afterwards still fails the
GetAccountSummary precondition without issuing a request. -/
theorem C1_invalid_credentials_on_non200_witness :
    (Login (NewClient []) (fun _ => Except.ok ⟨401, false, some (Json.jobj
        [("code", Json.jnum 401), ("message", Json.jstr "fail"),
         ("error", Json.jstr "invalid")])⟩) "u" "p").error =
      some ClientError.errInvalidCredentials ∧
    (Login (NewClient []) (fun _ => Except.ok ⟨401, false, some (Json.jobj
        [("code", Json.jnum 401), ("message", Json.jstr "fail"),
         ("error", Json.jstr "invalid")])⟩) "u" "p").response =
      some ⟨401, "fail", zeroLoginData, "invalid"⟩ ∧
    (Login (NewClient []) (fun _ => Except.ok ⟨401, false, some (Json.jobj
        [("code", Json.jnum 401), ("message", Json.jstr "fail"),
         ("error", Json.jstr "invalid")])⟩) "u" "p").client = NewClient [] ∧
    ((NewClient []).accessToken = "" →
      (GetAccountSummary (Login (NewClient []) (fun _ => Except.ok ⟨401, false,
          some (Json.jobj [("code", Json.jnum 401), ("message", Json.jstr "fail"),
            ("error", Json.jstr "invalid")])⟩) "u" "p").client
        (fun _ => Except.error ())).error = some ClientError.errNotAuthenticated ∧
      (GetAccountSummary (Login (NewClient []) (fun _ => Except.ok ⟨401, false,
          some (Json.jobj [("code", Json.jnum 401), ("message", Json.jstr "fail"),
            ("error", Json.jstr "invalid")])⟩) "u" "p").client
        (fun _ => Except.error ())).requests = []) :=
  C1_invalid_credentials_on_non200 (NewClient [])
    (fun _ => Except.ok ⟨401, false, some (Json.jobj
      [("code", Json.jnum 401), ("message", Json.jstr "fail"),
       ("error", Json.jstr "invalid")])⟩)
    (fun _ => Except.error ()) "u" "p"
    ⟨401, false, some (Json.jobj [("code", Json.jnum 401),
      ("message", Json.jstr "fail"), ("error", Json.jstr "invalid")])⟩
    (Json.jobj [("code", Json.jnum 401), ("message", Json.jstr "fail"),
      ("error", Json.jstr "invalid")])
    ⟨401, "fail", zeroLoginData, "invalid"⟩
    (by decide) (by decide) rfl rfl rfl (by decide) (by decide) (by decide)

/-- C10: a Login whose HTTP exchange returns status 200 and whose body
decodes into the envelope with an empty accessToken in the data payload
returns no error (reported as success) while storing the empty token, so
the resulting client still fails both GetAccountSummary and
GetPortfolioDetail with the not-authenticated error and issues no
request. -/
theorem C10_empty_token_success_leaves_unauthenticated (c : Client)
    (tr tr2 tr3 : Transport) (u p : String) (resp : HttpResponse) (j : Json)
    (lr : LoginResponse)
    (hu : trimSpace u ≠ "") (hp : trimSpace p ≠ "")
    (htr : tr (buildRequest c "POST" "/v3/auth/login"
        (some (marshalLoginRequest ⟨u, p⟩))) = Except.ok resp)
    (hread : resp.bodyReadError = false) (hbody : resp.body = some j)
    (hdec : unmarshalLoginResponse j = some lr)
    (hstatus : resp.statusCode = 200) (htok : lr.data.accessToken = "") :
    (Login c tr u p).error = none ∧
    (Login c tr u p).response = some lr ∧
    (Login c tr u p).client.accessToken = "" ∧
    (GetAccountSummary (Login c tr u p).client tr2).error =
      some ClientError.errNotAuthenticated ∧
    (GetAccountSummary (Login c tr u p).client tr2).requests = [] ∧
    (GetPortfolioDetail (Login c tr u p).client tr3).error =
      some ClientError.errNotAuthenticated ∧
    (GetPortfolioDetail (Login c tr u p).client tr3).requests = [] := by
  have he := handleResponse_ok resp unmarshalLoginResponse zeroLoginResponse
    "login" j lr hread hbody hdec hstatus
  have hlogin : Login c tr u p =
      ⟨{ c with accessToken := lr.data.accessToken },
        [buildRequest c "POST" "/v3/auth/login"
          (some (marshalLoginRequest ⟨u, p⟩))], some lr, none⟩ := by
    simp [Login, hu, hp, htr, he]
  rw [hlogin]
  simp [GetAccountSummary, GetPortfolioDetail, htok]

/-- Witness for C10: HTTP 200 with envelope code 200, message Success
and an empty data object logs in without error, stores the empty token,
and both read operations still fail the precondition with no request. -/
theorem C10_empty_token_success_leaves_unauthenticated_witness :
    (Login (NewClient []) (fun _ => Except.ok ⟨200, false, some (Json.jobj
        [("code", Json.jnum 200), ("message", Json.jstr "Success"),
         ("data", Json.jobj [])])⟩) "u" "p").error = none ∧
    (Login (NewClient []) (fun _ => Except.ok ⟨200, false, some (Json.jobj
        [("code", Json.jnum 200), ("message", Json.jstr "Success"),
         ("data", Json.jobj [])])⟩) "u" "p").response =
      some ⟨200, "Success", zeroLoginData, ""⟩ ∧
    (Login (NewClient []) (fun _ => Except.ok ⟨200, false, some (Json.jobj
        [("code", Json.jnum 200), ("message", Json.jstr "Success"),
         ("data", Json.jobj [])])⟩) "u" "p").client.accessToken = "" ∧
    (GetAccountSummary (Login (NewClient []) (fun _ => Except.ok ⟨200, false,
        some (Json.jobj [("code", Json.jnum 200), ("message", Json.jstr "Success"),
          ("data", Json.jobj [])])⟩) "u" "p").client
      (fun _ => Except.error ())).error = some ClientError.errNotAuthenticated ∧
    (GetAccountSummary (Login (NewClient []) (fun _ => Except.ok ⟨200, false,
        some (Json.jobj [("code", Json.jnum 200), ("message", Json.jstr "Success"),
          ("data", Json.jobj [])])⟩) "u" "p").client
      (fun _ => Except.error ())).requests = [] ∧
    (GetPortfolioDetail (Login (NewClient []) (fun _ => Except.ok ⟨200, false,
        some (Json.jobj [("code", Json.jnum 200), ("message", Json.jstr "Success"),
          ("data", Json.jobj [])])⟩) "u" "p").client
      (fun _ => Except.error ())).error = some ClientError.errNotAuthenticated ∧
    (GetPortfolioDetail (Login (NewClient []) (fun _ => Except.ok ⟨200, false,
        some (Json.jobj [("code", Json.jnum 200), ("message", Json.jstr "Success"),
          ("data", Json.jobj [])])⟩) "u" "p").client
      (fun _ => Except.error ())).requests = [] :=
  C10_empty_token_success_leaves_unauthenticated (NewClient [])
    (fun _ => Except.ok ⟨200, false, some (Json.jobj
      [("code", Json.jnum 200), ("message", Json.jstr "Success"),
       ("data", Json.jobj [])])⟩)
    (fun _ => Except.error ()) (fun _ => Except.error ()) "u" "p"
    ⟨200, false, some (Json.jobj [("code", Json.jnum 200),
      ("message", Json.jstr "Success"), ("data", Json.jobj [])])⟩
    (Json.jobj [("code", Json.jnum 200), ("message", Json.jstr "Success"),
      ("data", Json.jobj [])])
    ⟨200, "Success", zeroLoginData, ""⟩
    (by decide) (by decide) rfl rfl rfl (by decide) rfl rfl

/-- C7: on every request the client builds, the Authorization header
equals the stored token exactly when that token is non-empty; with no
token held, no Authorization header is present at all. -/
theorem C7_authorization_header_iff_token (c : Client) (method endpoint : String)
    (payload : Option Json) :
    (c.accessToken ≠ "" →
      (buildRequest c method endpoint payload).headers "Authorization" =
        some c.accessToken) ∧
    (c.accessToken = "" →
      (buildRequest c method endpoint payload).headers "Authorization" = none) := by
  rcases payload with _ | payl
  · constructor
    · intro h; simp [buildRequest, setHeader, h]
    · intro h; simp [buildRequest, setHeader, noHeaders, h]
  · constructor
    · intro h; simp [buildRequest, setHeader, h]
    · intro h; simp [buildRequest, setHeader, noHeaders, h]

/-- Witness for C7: a client holding token T sends Authorization T on
the next request, and a fresh client sends no Authorization header. -/
theorem C7_authorization_header_iff_token_witness :
    (buildRequest { baseURL := BaseURL, httpClient := some ⟨DefaultTimeout⟩,
                    userAgent := DefaultUserAgent, accessToken := "T" }
      "GET" "/v2/users/accountSummary/summary" none).headers "Authorization" =
      some "T" ∧
    (buildRequest (NewClient []) "GET" "/v2/users/accountSummary/summary"
      none).headers "Authorization" = none :=
  ⟨(C7_authorization_header_iff_token
      { baseURL := BaseURL, httpClient := some ⟨DefaultTimeout⟩,
        userAgent := DefaultUserAgent, accessToken := "T" }
      "GET" "/v2/users/accountSummary/summary" none).1 (by decide),
   (C7_authorization_header_iff_token (NewClient [])
      "GET" "/v2/users/accountSummary/summary" none).2 rfl⟩

end Stockal
